import Mathlib

/-!
Shallow embedding of the `otel_tracing` repository's core logic:

* `src/domain/telemetry.rs` — the `AttributeValue` tagged union, its
  free-text `parse` chain and the `From` coercions from native scalars;
* `src/domain/metrics.rs` — the `MetricUnit` taxonomy and its
  string codec (`as_str` / `from_str`);
* `src/adapters/datadog/logger.rs` — the Datadog convention mapper
  (`transform_attributes_to_datadog_format`), the status/service
  injection performed by `DatadogLogger::log`, and `to_datadog_status`;
* `src/services/telemetry.rs` — `TelemetryService::shutdown`.

Machine integers are modelled as `Nat`/`Int` with explicit range checks
and two's-complement wrapping where the source casts.  Rust `f64` parsing
is modelled at the grammar level: the embedded parser accepts exactly the
strings Rust's `FromStr for f64` accepts, and carries the exact decimal
value as a rational (the value before IEEE rounding); infinities and NaN
are explicit constructors.  A Rust `panic!` is modelled as `none`, and
`HashMap<String, _>` as an association list with duplicate-free keys,
where `insert` replaces the value of an existing key.
-/

/-- Alias for `String`, usable inside namespaces where a constructor
named `String` shadows the type. -/
abbrev Str := String

/-- Numeric value of an ASCII decimal digit list (`0` on the empty list). -/
def digitsToNat (cs : List Char) : Nat :=
  cs.foldl (fun n c => 10 * n + (c.toNat - 48)) 0

/-- Parse a non-empty all-digit character list to its value, `none` otherwise. -/
def decDigits? (cs : List Char) : Option Nat :=
  if cs ≠ [] ∧ cs.all Char.isDigit then some (digitsToNat cs) else none

/-- Rust `str::parse::<u128>()`: an optional leading `+`, then one or more
decimal digits whose value fits in 128 bits; anything else is an error. -/
def parseU128 (s : String) : Option Nat :=
  let cs := match s.data with
    | '+' :: rest => rest
    | cs => cs
  match decDigits? cs with
  | some n => if n < 2 ^ 128 then some n else none
  | none => none

/-- Rust `str::parse::<i64>()`: an optional sign, then one or more decimal
digits; the value must lie in `[-2^63, 2^63 - 1]`. -/
def parseI64 (s : String) : Option Int :=
  match s.data with
  | '-' :: rest =>
    match decDigits? rest with
    | some n => if n ≤ 2 ^ 63 then some (-(n : Int)) else none
    | none => none
  | '+' :: rest =>
    match decDigits? rest with
    | some n => if n ≤ 2 ^ 63 - 1 then some ((n : Int)) else none
    | none => none
  | cs =>
    match decDigits? cs with
    | some n => if n ≤ 2 ^ 63 - 1 then some ((n : Int)) else none
    | none => none

/-- The value space of a parsed Rust `f64`, with the finite case carrying
the exact decimal value as a rational (the ideal value before IEEE-754
rounding; this embedding does not model the rounding step). -/
inductive F64 where
  | finite (q : ℚ)
  | inf (neg : Bool)
  | nan
deriving DecidableEq, Repr

/-- Split a character list at the first `e`/`E` (exponent marker). -/
def splitExp : List Char → List Char × Option (List Char)
  | [] => ([], none)
  | c :: rest =>
    if c = 'e' ∨ c = 'E' then ([], some rest)
    else
      let (m, e) := splitExp rest
      (c :: m, e)

/-- Split a character list at the first `.` (decimal point). -/
def splitDot : List Char → List Char × Option (List Char)
  | [] => ([], none)
  | c :: rest =>
    if c = '.' then ([], some rest)
    else
      let (i, f) := splitDot rest
      (c :: i, f)

/-- Mantissa of Rust's float grammar:
`Digit+ | Digit+ '.' Digit* | Digit* '.' Digit+`, valued exactly. -/
def parseMantissa (cs : List Char) : Option ℚ :=
  let (ip, fp) := splitDot cs
  match fp with
  | none => (decDigits? ip).map (fun n => (n : ℚ))
  | some fs =>
    if ip.all Char.isDigit ∧ fs.all Char.isDigit ∧ (ip ≠ [] ∨ fs ≠ []) then
      some ((digitsToNat ip : ℚ) + (digitsToNat fs : ℚ) / (10 : ℚ) ^ fs.length)
    else none

/-- Exponent of Rust's float grammar: `Sign? Digit+`. -/
def parseExpPart (cs : List Char) : Option Int :=
  match cs with
  | '+' :: rest => (decDigits? rest).map (fun n => ((n : Int)))
  | '-' :: rest => (decDigits? rest).map (fun n => (-(n : Int)))
  | cs => (decDigits? cs).map (fun n => ((n : Int)))

/-- Rust `str::parse::<f64>()`, at the grammar level:
`Sign? ( 'inf' | 'infinity' | 'nan' | Number )` with the keywords matched
case-insensitively, `Number ::= Mantissa Exp?`.  A finite result carries
the exact decimal value. -/
def parseF64 (s : String) : Option F64 :=
  let (neg, cs) : Bool × List Char := match s.data with
    | '-' :: rest => (true, rest)
    | '+' :: rest => (false, rest)
    | cs => (false, cs)
  let low := cs.map Char.toLower
  if low = "inf".data ∨ low = "infinity".data then some (.inf neg)
  else if low = "nan".data then some .nan
  else
    let (mant, ex) := splitExp cs
    match parseMantissa mant, ex with
    | some q, none => some (.finite (if neg then -q else q))
    | some q, some ecs =>
      match parseExpPart ecs with
      | some e =>
        let v := q * (10 : ℚ) ^ e
        some (.finite (if neg then -v else v))
      | none => none
    | none, _ => none

/-- Rust `str::parse::<bool>()`: exactly `"true"` or `"false"`. -/
def parseRustBool (s : String) : Option Bool :=
  if s = "true" then some true else if s = "false" then some false else none

/-- Model of `AttributeValue` from `src/domain/telemetry.rs`: a closed tagged union
over String, Int (i64), Uint (u128), Float (f64) and Bool. -/
inductive AttributeValue where
  | String (s : String)
  | Int (i : Int)
  | Uint (u : Nat)
  | Float (f : F64)
  | Bool (b : Bool)
deriving DecidableEq, Repr

namespace AttributeValue

/-- Model of `AttributeValue::parse`: try `u128`, then `i64`, then `f64`, then
`bool`, first success wins; otherwise keep the original text as `String`. -/
def parse (value : Str) : AttributeValue :=
  match parseU128 value with
  | some uint_value => .Uint uint_value
  | none =>
    match parseI64 value with
    | some int_value => .Int int_value
    | none =>
      match parseF64 value with
      | some float_value => .Float float_value
      | none =>
        match parseRustBool value with
        | some bool_value => .Bool bool_value
        | none => .String value

/-- Model of `impl From<u32> for AttributeValue` (`value as i64`): a `u32` always
fits in an `i64`, so the cast is value-preserving. -/
def fromU32 (value : Nat) : AttributeValue := .Int (value : ℤ)

/-- Two's-complement interpretation of a `u64` bit pattern as an `i64`,
the semantics of Rust's `value as i64` cast on a `u64`. -/
def i64_of_u64 (x : Nat) : ℤ :=
  if x < 2 ^ 63 then (x : ℤ) else (x : ℤ) - 2 ^ 64

/-- Model of `impl From<u64> for AttributeValue` (`value as i64`): a wrapping cast. -/
def fromU64 (value : Nat) : AttributeValue := .Int (i64_of_u64 value)

/-- Model of `impl From<u128> for AttributeValue`. -/
def fromU128 (value : Nat) : AttributeValue := .Uint value

end AttributeValue

/-- Byte-related units (`BytesUnit` in `src/domain/metrics.rs`). -/
inductive BytesUnit where
  | Bit | Byte | KiloByte | MegaByte | GigaByte | TeraByte | PetaByte | ExaByte
deriving DecidableEq, Repr

def BytesUnit.as_str : BytesUnit → Str
  | .Bit => "bit"
  | .Byte => "byte"
  | .KiloByte => "kilobyte"
  | .MegaByte => "megabyte"
  | .GigaByte => "gigabyte"
  | .TeraByte => "terabyte"
  | .PetaByte => "petabyte"
  | .ExaByte => "exabyte"

/-- Time-related units. -/
inductive TimeUnit where
  | Nanosecond | Microsecond | Millisecond | Second | Minute | Hour | Day | Week
deriving DecidableEq, Repr

def TimeUnit.as_str : TimeUnit → Str
  | .Nanosecond => "ns"
  | .Microsecond => "μs"
  | .Millisecond => "ms"
  | .Second => "s"
  | .Minute => "min"
  | .Hour => "hr"
  | .Day => "day"
  | .Week => "wk"

/-- Percentage-related units. -/
inductive PercentageUnit where
  | PercentNano | Percent | Apdex | Fraction
deriving DecidableEq, Repr

def PercentageUnit.as_str : PercentageUnit → Str
  | .PercentNano => "n%"
  | .Percent => "%"
  | .Apdex => "apdex"
  | .Fraction => "fraction"

/-- Network-related units. -/
inductive NetworkUnit where
  | Connection | Request | Packet | Segment | Response | Message
  | Payload | Timeout | Datagram | Route | Session | Hop
deriving DecidableEq, Repr

def NetworkUnit.as_str : NetworkUnit → Str
  | .Connection => "conn"
  | .Request => "req"
  | .Packet => "pkt"
  | .Segment => "seg"
  | .Response => "rsp"
  | .Message => "msg"
  | .Payload => "payload"
  | .Timeout => "timeout"
  | .Datagram => "datagram"
  | .Route => "route"
  | .Session => "session"
  | .Hop => "hop"

/-- System-related units. -/
inductive SystemUnit where
  | Process | Thread | Host | Node | Fault | Service | Instance | Cpu
deriving DecidableEq, Repr

def SystemUnit.as_str : SystemUnit → Str
  | .Process => "proc"
  | .Thread => "thread"
  | .Host => "host"
  | .Node => "node"
  | .Fault => "fault"
  | .Service => "svc"
  | .Instance => "instance"
  | .Cpu => "cpu"

/-- Disk-related units. -/
inductive DiskUnit where
  | File | Inode | Sector | Block
deriving DecidableEq, Repr

def DiskUnit.as_str : DiskUnit → Str
  | .File => "file"
  | .Inode => "inode"
  | .Sector => "sector"
  | .Block => "blk"

/-- General units. -/
inductive GeneralUnit where
  | Buffer | Error | Read | Write | Occurrence | Event | Time | Unit
  | Operation | Item | Task | Worker | Resource | GarbageCollection
  | Email | Sample | Stage | Monitor | Location | Check | Attempt
  | Device | Update | Method | Job | Container | Execution | Throttle
  | Invocation | User | Success | Build | Prediction | Exception
deriving DecidableEq, Repr

def GeneralUnit.as_str : GeneralUnit → Str
  | .Buffer => "buffer"
  | .Error => "err"
  | .Read => "rd"
  | .Write => "wr"
  | .Occurrence => "occurrence"
  | .Event => "event"
  | .Time => "time"
  | .Unit => "unit"
  | .Operation => "op"
  | .Item => "item"
  | .Task => "task"
  | .Worker => "worker"
  | .Resource => "res"
  | .GarbageCollection => "gc"
  | .Email => "email"
  | .Sample => "smpl"
  | .Stage => "stage"
  | .Monitor => "monitor"
  | .Location => "location"
  | .Check => "check"
  | .Attempt => "attempt"
  | .Device => "dev"
  | .Update => "up"
  | .Method => "mthd"
  | .Job => "job"
  | .Container => "container"
  | .Execution => "execution"
  | .Throttle => "throttle"
  | .Invocation => "invocation"
  | .User => "user"
  | .Success => "success"
  | .Build => "build"
  | .Prediction => "prediction"
  | .Exception => "exception"

/-- Database-related units. -/
inductive DatabaseUnit where
  | Table | Index | Lock | Transaction | Query | Row | Key | Command
  | Offset | Record | Object | Cursor | Assertion | Scan | Document
  | Shard | Flush | Merge | Refresh | Fetch | Column | Commit | Wait
  | Ticket | Question
deriving DecidableEq, Repr

def DatabaseUnit.as_str : DatabaseUnit → Str
  | .Table => "table"
  | .Index => "idx"
  | .Lock => "lock"
  | .Transaction => "tx"
  | .Query => "query"
  | .Row => "row"
  | .Key => "key"
  | .Command => "cmd"
  | .Offset => "offset"
  | .Record => "record"
  | .Object => "object"
  | .Cursor => "cursor"
  | .Assertion => "assert"
  | .Scan => "scan"
  | .Document => "document"
  | .Shard => "shard"
  | .Flush => "flush"
  | .Merge => "merge"
  | .Refresh => "refresh"
  | .Fetch => "fetch"
  | .Column => "col"
  | .Commit => "commit"
  | .Wait => "wait"
  | .Ticket => "ticket"
  | .Question => "question"

/-- Cache-related units. -/
inductive CacheUnit where
  | Hit | Miss | Eviction | Get | Set
deriving DecidableEq, Repr

def CacheUnit.as_str : CacheUnit → Str
  | .Hit => "hit"
  | .Miss => "miss"
  | .Eviction => "eviction"
  | .Get => "get"
  | .Set => "set"

/-- Money-related units. -/
inductive MoneyUnit where
  | Dollar | Cent | MicroDollar | Euro | Pound | Pence | Yen
deriving DecidableEq, Repr

def MoneyUnit.as_str : MoneyUnit → Str
  | .Dollar => "$"
  | .Cent => "¢"
  | .MicroDollar => "μ$"
  | .Euro => "€"
  | .Pound => "£"
  | .Pence => "p"
  | .Yen => "¥"

/-- Memory-related units. -/
inductive MemoryUnit where
  | Page | Split
deriving DecidableEq, Repr

def MemoryUnit.as_str : MemoryUnit → Str
  | .Page => "pg"
  | .Split => "split"

/-- Frequency-related units. -/
inductive FrequencyUnit where
  | Hertz | Kilohertz | Megahertz | Gigahertz
deriving DecidableEq, Repr

def FrequencyUnit.as_str : FrequencyUnit → Str
  | .Hertz => "Hz"
  | .Kilohertz => "kHz"
  | .Megahertz => "MHz"
  | .Gigahertz => "GHz"

/-- Logging-related units. -/
inductive LoggingUnit where
  | Entry
deriving DecidableEq, Repr

def LoggingUnit.as_str : LoggingUnit → Str
  | .Entry => "entry"

/-- Temperature-related units. -/
inductive TemperatureUnit where
  | DeciDegreeCelsius | DegreeCelsius | DegreeFahrenheit
deriving DecidableEq, Repr

def TemperatureUnit.as_str : TemperatureUnit → Str
  | .DeciDegreeCelsius => "d°C"
  | .DegreeCelsius => "°C"
  | .DegreeFahrenheit => "°F"

/-- CPU-related units. -/
inductive CpuUnit where
  | NanoCore | MicroCore | MilliCore | Core | KiloCore | MegaCore
  | GigaCore | TeraCore | PetaCore | ExaCore
deriving DecidableEq, Repr

def CpuUnit.as_str : CpuUnit → Str
  | .NanoCore => "ncores"
  | .MicroCore => "μcores"
  | .MilliCore => "mcores"
  | .Core => "core"
  | .KiloCore => "Kcores"
  | .MegaCore => "Mcores"
  | .GigaCore => "Gcores"
  | .TeraCore => "Tcores"
  | .PetaCore => "Pcores"
  | .ExaCore => "Ecores"

/-- Power-related units. -/
inductive PowerUnit where
  | Nanowatt | Microwatt | Milliwatt | Deciwatt | Watt | Kilowatt
  | Megawatt | Gigawatt | Terrawatt
deriving DecidableEq, Repr

def PowerUnit.as_str : PowerUnit → Str
  | .Nanowatt => "nW"
  | .Microwatt => "μW"
  | .Milliwatt => "mW"
  | .Deciwatt => "dW"
  | .Watt => "watt"
  | .Kilowatt => "kilowatt"
  | .Megawatt => "megawatt"
  | .Gigawatt => "gigawatt"
  | .Terrawatt => "terrawatt"

/-- Current-related units. -/
inductive CurrentUnit where
  | Milliampere | Ampere
deriving DecidableEq, Repr

def CurrentUnit.as_str : CurrentUnit → Str
  | .Milliampere => "mA"
  | .Ampere => "A"

/-- Potential-related units. -/
inductive PotentialUnit where
  | Millivolt | Volt
deriving DecidableEq, Repr

def PotentialUnit.as_str : PotentialUnit → Str
  | .Millivolt => "mV"
  | .Volt => "V"

/-- APM-related units. -/
inductive ApmUnit where
  | Span
deriving DecidableEq, Repr

def ApmUnit.as_str : ApmUnit → Str
  | .Span => "span"

/-- Synthetics-related units. -/
inductive SyntheticsUnit where
  | Run | Step
deriving DecidableEq, Repr

def SyntheticsUnit.as_str : SyntheticsUnit → Str
  | .Run => "run"
  | .Step => "step"

/-- Model of `MetricUnit` from `src/domain/metrics.rs`: the closed union of all
Datadog metric unit categories. -/
inductive MetricUnit where
  | Bytes (unit : BytesUnit)
  | Time (unit : TimeUnit)
  | Percentage (unit : PercentageUnit)
  | Network (unit : NetworkUnit)
  | System (unit : SystemUnit)
  | Disk (unit : DiskUnit)
  | General (unit : GeneralUnit)
  | Database (unit : DatabaseUnit)
  | Cache (unit : CacheUnit)
  | Money (unit : MoneyUnit)
  | Memory (unit : MemoryUnit)
  | Frequency (unit : FrequencyUnit)
  | Logging (unit : LoggingUnit)
  | Temperature (unit : TemperatureUnit)
  | Cpu (unit : CpuUnit)
  | Power (unit : PowerUnit)
  | Current (unit : CurrentUnit)
  | Potential (unit : PotentialUnit)
  | Apm (unit : ApmUnit)
  | Synthetics (unit : SyntheticsUnit)
  | Count
deriving DecidableEq, Repr

/-- Model of `MetricUnit::as_str`: the canonical short-code of a unit. -/
def MetricUnit.as_str : MetricUnit → Str
  | .Bytes unit => unit.as_str
  | .Time unit => unit.as_str
  | .Percentage unit => unit.as_str
  | .Network unit => unit.as_str
  | .System unit => unit.as_str
  | .Disk unit => unit.as_str
  | .General unit => unit.as_str
  | .Database unit => unit.as_str
  | .Cache unit => unit.as_str
  | .Money unit => unit.as_str
  | .Memory unit => unit.as_str
  | .Frequency unit => unit.as_str
  | .Logging unit => unit.as_str
  | .Temperature unit => unit.as_str
  | .Cpu unit => unit.as_str
  | .Power unit => unit.as_str
  | .Current unit => unit.as_str
  | .Potential unit => unit.as_str
  | .Apm unit => unit.as_str
  | .Synthetics unit => unit.as_str
  | .Count => "count"

/-- Model of `MetricUnit::from_str`, with the source's `panic!("Unknown metric unit")`
on the catch-all arm modelled as `none`.  The match arms below are exactly
the arms of the source's `match`. -/
def MetricUnit.from_str (s : Str) : Option MetricUnit :=
  match s with
  | "bit" => some (.Bytes .Bit)
  | "byte" => some (.Bytes .Byte)
  | "kilobyte" => some (.Bytes .KiloByte)
  | "megabyte" => some (.Bytes .MegaByte)
  | "gigabyte" => some (.Bytes .GigaByte)
  | "terabyte" => some (.Bytes .TeraByte)
  | "ns" => some (.Time .Nanosecond)
  | "μs" => some (.Time .Microsecond)
  | "ms" => some (.Time .Millisecond)
  | "s" => some (.Time .Second)
  | "min" => some (.Time .Minute)
  | "hr" => some (.Time .Hour)
  | "day" => some (.Time .Day)
  | "wk" => some (.Time .Week)
  | "n%" => some (.Percentage .PercentNano)
  | "%" => some (.Percentage .Percent)
  | "apdex" => some (.Percentage .Apdex)
  | "fraction" => some (.Percentage .Fraction)
  | "conn" => some (.Network .Connection)
  | "req" => some (.Network .Request)
  | "pkt" => some (.Network .Packet)
  | "seg" => some (.Network .Segment)
  | "rsp" => some (.Network .Response)
  | "msg" => some (.Network .Message)
  | "payload" => some (.Network .Payload)
  | "timeout" => some (.Network .Timeout)
  | "datagram" => some (.Network .Datagram)
  | "route" => some (.Network .Route)
  | "session" => some (.Network .Session)
  | "hop" => some (.Network .Hop)
  | "proc" => some (.System .Process)
  | "thread" => some (.System .Thread)
  | "host" => some (.System .Host)
  | "node" => some (.System .Node)
  | "fault" => some (.System .Fault)
  | "svc" => some (.System .Service)
  | "instance" => some (.System .Instance)
  | "cpu" => some (.System .Cpu)
  | "buffer" => some (.General .Buffer)
  | "err" => some (.General .Error)
  | "rd" => some (.General .Read)
  | "wr" => some (.General .Write)
  | "occurrence" => some (.General .Occurrence)
  | "event" => some (.General .Event)
  | "time" => some (.General .Time)
  | "unit" => some (.General .Unit)
  | "op" => some (.General .Operation)
  | "item" => some (.General .Item)
  | "task" => some (.General .Task)
  | "worker" => some (.General .Worker)
  | "res" => some (.General .Resource)
  | "gc" => some (.General .GarbageCollection)
  | "email" => some (.General .Email)
  | "smpl" => some (.General .Sample)
  | "stage" => some (.General .Stage)
  | "monitor" => some (.General .Monitor)
  | "location" => some (.General .Location)
  | "check" => some (.General .Check)
  | "attempt" => some (.General .Attempt)
  | "dev" => some (.General .Device)
  | "up" => some (.General .Update)
  | "mthd" => some (.General .Method)
  | "job" => some (.General .Job)
  | "container" => some (.General .Container)
  | "execution" => some (.General .Execution)
  | "throttle" => some (.General .Throttle)
  | "invocation" => some (.General .Invocation)
  | "user" => some (.General .User)
  | "success" => some (.General .Success)
  | "build" => some (.General .Build)
  | "prediction" => some (.General .Prediction)
  | "exception" => some (.General .Exception)
  | "table" => some (.Database .Table)
  | "idx" => some (.Database .Index)
  | "lock" => some (.Database .Lock)
  | "tx" => some (.Database .Transaction)
  | "query" => some (.Database .Query)
  | "row" => some (.Database .Row)
  | "key" => some (.Database .Key)
  | "cmd" => some (.Database .Command)
  | "offset" => some (.Database .Offset)
  | "record" => some (.Database .Record)
  | "object" => some (.Database .Object)
  | "cursor" => some (.Database .Cursor)
  | "assert" => some (.Database .Assertion)
  | "scan" => some (.Database .Scan)
  | "document" => some (.Database .Document)
  | "shard" => some (.Database .Shard)
  | "flush" => some (.Database .Flush)
  | "merge" => some (.Database .Merge)
  | "refresh" => some (.Database .Refresh)
  | "fetch" => some (.Database .Fetch)
  | "col" => some (.Database .Column)
  | "commit" => some (.Database .Commit)
  | "wait" => some (.Database .Wait)
  | "ticket" => some (.Database .Ticket)
  | "question" => some (.Database .Question)
  | "hit" => some (.Cache .Hit)
  | "miss" => some (.Cache .Miss)
  | "eviction" => some (.Cache .Eviction)
  | "get" => some (.Cache .Get)
  | "set" => some (.Cache .Set)
  | "$" => some (.Money .Dollar)
  | "¢" => some (.Money .Cent)
  | "μ$" => some (.Money .MicroDollar)
  | "€" => some (.Money .Euro)
  | "£" => some (.Money .Pound)
  | "p" => some (.Money .Pence)
  | "¥" => some (.Money .Yen)
  | "pg" => some (.Memory .Page)
  | "split" => some (.Memory .Split)
  | "Hz" => some (.Frequency .Hertz)
  | "kHz" => some (.Frequency .Kilohertz)
  | "MHz" => some (.Frequency .Megahertz)
  | "GHz" => some (.Frequency .Gigahertz)
  | "entry" => some (.Logging .Entry)
  | "d°C" => some (.Temperature .DeciDegreeCelsius)
  | "°C" => some (.Temperature .DegreeCelsius)
  | "°F" => some (.Temperature .DegreeFahrenheit)
  | "ncores" => some (.Cpu .NanoCore)
  | "μcores" => some (.Cpu .MicroCore)
  | "mcores" => some (.Cpu .MilliCore)
  | "core" => some (.Cpu .Core)
  | "Kcores" => some (.Cpu .KiloCore)
  | "Mcores" => some (.Cpu .MegaCore)
  | "Gcores" => some (.Cpu .GigaCore)
  | "Tcores" => some (.Cpu .TeraCore)
  | "Pcores" => some (.Cpu .PetaCore)
  | "Ecores" => some (.Cpu .ExaCore)
  | "nW" => some (.Power .Nanowatt)
  | "μW" => some (.Power .Microwatt)
  | "mW" => some (.Power .Milliwatt)
  | "dW" => some (.Power .Deciwatt)
  | "watt" => some (.Power .Watt)
  | "kilowatt" => some (.Power .Kilowatt)
  | "megawatt" => some (.Power .Megawatt)
  | "gigawatt" => some (.Power .Gigawatt)
  | "terrawatt" => some (.Power .Terrawatt)
  | "mA" => some (.Current .Milliampere)
  | "A" => some (.Current .Ampere)
  | "mV" => some (.Potential .Millivolt)
  | "V" => some (.Potential .Volt)
  | "span" => some (.Apm .Span)
  | "run" => some (.Synthetics .Run)
  | "step" => some (.Synthetics .Step)
  | "count" => some .Count
  | _ => none

/-- An attribute map (`HashMap<String, AttributeValue>` in the source),
modelled as an association list; all operations keep keys duplicate-free. -/
abbrev AttrMap := List (String × AttributeValue)

/-- Model of `HashMap::insert`: replace the value of an existing key, otherwise add
the binding. -/
def insertAttr : AttrMap → String → AttributeValue → AttrMap
  | [], k, v => [(k, v)]
  | p :: rest, k, v => if p.1 = k then (k, v) :: rest else p :: insertAttr rest k v

/-- Model of `HashMap::get`: the value bound to a key, if any. -/
def lookupAttr : AttrMap → String → Option AttributeValue
  | [], _ => none
  | p :: rest, k => if p.1 = k then some p.2 else lookupAttr rest k

/-- Model of `HashMap::contains_key`. -/
def containsKey (m : AttrMap) (k : String) : Bool :=
  m.any (fun p => p.1 = k)

/-- The keys of an attribute map, in order. -/
def keysOf (m : AttrMap) : List String :=
  m.map Prod.fst

/-- The four Datadog reserved attributes of the mapper's first match arm. -/
def reservedKeys : List String := ["service", "host", "source", "trace_id"]

/-- Rust `str::starts_with`: does `key` start with `p`?  (Stated over the
character lists so that it evaluates by kernel reduction.) -/
def starts_with (key p : String) : Bool :=
  p.data.isPrefixOf key.data

/-- The fixed Datadog namespace markers of the mapper's guard arm. -/
def ddNamespaces : List String :=
  ["network.", "http.", "logger.", "error.", "usr.", "db.", "syslog.", "dns.", "evt."]

/-- The per-key rewriting performed by
`DatadogLogger::transform_attributes_to_datadog_format`, one input key to
one output key, following the source's match arms in order:
reserved passthrough, namespaced passthrough, alias remaps, default. -/
def ddKey (key : String) : String :=
  if key ∈ reservedKeys then key
  else if ddNamespaces.any (fun p => starts_with key p) then key
  else if key = "user" ∨ key = "user_id" then "usr.id"
  else if key = "duration" ∨ key = "latency" ∨ key = "exec_time" ∨ key = "time_elapsed" then
    "duration"
  else if key = "ip" ∨ key = "client_ip" ∨ key = "remote_addr" ∨ key = "remote_ip" then
    "network.client.ip"
  else key

/-- Model of `DatadogLogger::transform_attributes_to_datadog_format`: rebuild the
map, inserting each value under its rewritten key. -/
def transform_attributes_to_datadog_format (attributes : AttrMap) : AttrMap :=
  attributes.foldl (fun acc kv => insertAttr acc (ddKey kv.1) kv.2) []

/-- Spec reading of the mapper's per-key rule (section 4.3 of the spec):
first matching rule wins, in the order (1) reserved passthrough,
(2) already-namespaced passthrough, (3) remap table, (4) default copy. -/
def ddKeySpec (key : String) : String :=
  if key = "service" ∨ key = "host" ∨ key = "source" ∨ key = "trace_id" then key
  else if (starts_with key "network." ∨ starts_with key "http." ∨ starts_with key "logger."
      ∨ starts_with key "error." ∨ starts_with key "usr." ∨ starts_with key "db."
      ∨ starts_with key "syslog." ∨ starts_with key "dns." ∨ starts_with key "evt.") then key
  else if key = "user" ∨ key = "user_id" then "usr.id"
  else if key = "duration" ∨ key = "latency" ∨ key = "exec_time" ∨ key = "time_elapsed" then
    "duration"
  else if key = "ip" ∨ key = "client_ip" ∨ key = "remote_addr" ∨ key = "remote_ip" then
    "network.client.ip"
  else key

/-- Model of `LogLevel` from `src/domain/telemetry.rs`. -/
inductive LogLevel where
  | Trace | Debug | Info | Warn | Error | Critical
deriving DecidableEq, Repr

/-- Model of `LogContext` from `src/domain/telemetry.rs` (the timestamp is elapsed
milliseconds or nanoseconds since the epoch, a `u128` in the source). -/
structure LogContext where
  level : LogLevel
  timestamp : Option Nat
  message : String
  target : Option String
  attributes : AttrMap
deriving Repr

/-- The state of a `DatadogLogger` relevant to `log` (the provider handle
only matters for init/shutdown I/O, which is external). -/
structure DatadogLogger where
  use_high_precision_timestamps : Bool
  service_name : String
deriving Repr

/-- Model of `DatadogLogger::to_datadog_status`: the Datadog status string of a
log level. -/
def DatadogLogger.to_datadog_status : LogLevel → String
  | .Debug => "debug"
  | .Info => "info"
  | .Warn => "warn"
  | .Error => "error"
  | .Critical => "critical"
  | .Trace => "trace"

/-- The attribute enrichment done by `DatadogLogger::log` before convention
mapping: add `status` (textual log level) if absent, then add `service`
(the configured service name) if absent. -/
def DatadogLogger.logAttributes (lg : DatadogLogger) (context : LogContext) : AttrMap :=
  let attributes := context.attributes
  let attributes :=
    if !containsKey attributes "status" then
      insertAttr attributes "status"
        (AttributeValue.String (DatadogLogger.to_datadog_status context.level))
    else attributes
  let attributes :=
    if !containsKey attributes "service" then
      insertAttr attributes "service" (AttributeValue.String lg.service_name)
    else attributes
  attributes

/-- The full attribute pipeline of `DatadogLogger::log`: enrichment, then
the Datadog convention mapper. -/
def DatadogLogger.logDatadogAttributes (lg : DatadogLogger) (context : LogContext) : AttrMap :=
  transform_attributes_to_datadog_format (lg.logAttributes context)

/-- Model of `TelemetryError` from `src/domain/telemetry.rs`. -/
inductive TelemetryError where
  | TracerInitError (msg : String)
  | MetricsInitError (msg : String)
  | LoggerInitError (msg : String)
  | ShutdownError (msg : String)
deriving DecidableEq, Repr

/-- What `TelemetryService::shutdown` did: which component shutdowns were
invoked (in order), and the returned result. -/
structure ShutdownOutcome where
  attempted : List String
  result : Except TelemetryError Unit
deriving Repr

/-- Model of `TelemetryService::shutdown`, with the result each component's own
`shutdown` call would return passed in as data.  The source awaits all
three shutdowns unconditionally (no `?`/early return), pushes a formatted
message for each failure, and returns `Ok` only when no message was
collected, otherwise one aggregate `ShutdownError` joining the messages
with `"; "`. -/
def TelemetryService.shutdown
    (tracer metrics logger : Except String Unit) : ShutdownOutcome :=
  let errors : List String := []
  let attempted := ["tracer"]
  let errors := match tracer with
    | .error e => errors ++ ["Tracer shutdown error: " ++ e]
    | .ok _ => errors
  let attempted := attempted ++ ["metrics"]
  let errors := match metrics with
    | .error e => errors ++ ["Metrics shutdown error: " ++ e]
    | .ok _ => errors
  let attempted := attempted ++ ["logger"]
  let errors := match logger with
    | .error e => errors ++ ["Logger shutdown error: " ++ e]
    | .ok _ => errors
  { attempted := attempted
    result :=
      if errors.isEmpty then .ok ()
      else .error (.ShutdownError (String.intercalate "; " errors)) }

theorem keysOf_nil : keysOf [] = [] := rfl

theorem keysOf_cons (p : String × AttributeValue) (m : AttrMap) :
    keysOf (p :: m) = p.1 :: keysOf m := rfl

theorem mem_keysOf_insertAttr {m : AttrMap} {k k' : String} {v : AttributeValue} :
    k' ∈ keysOf (insertAttr m k v) ↔ k' = k ∨ k' ∈ keysOf m := by
  induction m with
  | nil => simp [insertAttr, keysOf_cons, keysOf_nil]
  | cons p rest ih =>
    by_cases h : p.1 = k
    · subst h
      rw [insertAttr, if_pos rfl]
      simp only [keysOf_cons, List.mem_cons]
      tauto
    · rw [insertAttr, if_neg h, keysOf_cons, keysOf_cons, List.mem_cons, List.mem_cons, ih]
      tauto

theorem nodup_keysOf_insertAttr {m : AttrMap} {k : String} {v : AttributeValue}
    (h : (keysOf m).Nodup) : (keysOf (insertAttr m k v)).Nodup := by
  induction m with
  | nil => simp [insertAttr, keysOf_cons, keysOf_nil]
  | cons p rest ih =>
    rw [keysOf_cons, List.nodup_cons] at h
    by_cases hp : p.1 = k
    · subst hp
      rw [insertAttr, if_pos rfl, keysOf_cons, List.nodup_cons]
      exact h
    · rw [insertAttr, if_neg hp, keysOf_cons, List.nodup_cons]
      refine ⟨fun hmem => ?_, ih h.2⟩
      rcases mem_keysOf_insertAttr.1 hmem with h1 | h1
      · exact hp h1
      · exact h.1 h1

theorem mem_insertAttr_elim {m : AttrMap} {k k' : String} {v v' : AttributeValue}
    (h : (k', v') ∈ insertAttr m k v) : (k' = k ∧ v' = v) ∨ (k', v') ∈ m := by
  induction m with
  | nil =>
    simp [insertAttr] at h
    simp [h]
  | cons p rest ih =>
    by_cases hp : p.1 = k
    · subst hp
      rw [insertAttr, if_pos rfl] at h
      rcases List.mem_cons.1 h with h1 | h1
      · left
        exact ⟨congrArg Prod.fst h1, congrArg Prod.snd h1⟩
      · right
        exact List.mem_cons_of_mem _ h1
    · rw [insertAttr, if_neg hp] at h
      rcases List.mem_cons.1 h with h1 | h1
      · right
        exact h1 ▸ List.mem_cons_self _ _
      · rcases ih h1 with h2 | h2
        · exact Or.inl h2
        · exact Or.inr (List.mem_cons_of_mem _ h2)

theorem insertAttr_of_not_mem {m : AttrMap} {k : String} (v : AttributeValue)
    (h : k ∉ keysOf m) : insertAttr m k v = m ++ [(k, v)] := by
  induction m with
  | nil => rfl
  | cons p rest ih =>
    rw [keysOf_cons, List.mem_cons] at h
    push_neg at h
    rw [insertAttr, if_neg (fun hp => h.1 hp.symm), ih h.2, List.cons_append]

theorem lookupAttr_insertAttr_self (m : AttrMap) (k : String) (v : AttributeValue) :
    lookupAttr (insertAttr m k v) k = some v := by
  induction m with
  | nil => simp [insertAttr, lookupAttr]
  | cons p rest ih =>
    by_cases hp : p.1 = k
    · simp [insertAttr, hp, lookupAttr]
    · simp [insertAttr, hp, lookupAttr, ih]

theorem lookupAttr_insertAttr_other (m : AttrMap) {k k' : String} (v : AttributeValue)
    (h : k' ≠ k) : lookupAttr (insertAttr m k v) k' = lookupAttr m k' := by
  induction m with
  | nil =>
    have hkk : ¬k = k' := fun hc => h hc.symm
    simp [insertAttr, lookupAttr, hkk]
  | cons p rest ih =>
    by_cases hp : p.1 = k
    · subst hp
      rw [insertAttr, if_pos rfl]
      have hkk : ¬p.1 = k' := fun hc => h hc.symm
      simp [lookupAttr, hkk]
    · rw [insertAttr, if_neg hp]
      by_cases hq : p.1 = k'
      · simp [lookupAttr, hq]
      · simp [lookupAttr, hq, ih]

theorem containsKey_eq_isSome (m : AttrMap) (k : String) :
    containsKey m k = (lookupAttr m k).isSome := by
  induction m with
  | nil => rfl
  | cons p rest ih =>
    by_cases hp : p.1 = k
    · simp [containsKey, lookupAttr, hp]
    · simp [containsKey, lookupAttr, hp] at ih ⊢
      exact ih

theorem keysOf_append (a b : AttrMap) : keysOf (a ++ b) = keysOf a ++ keysOf b :=
  List.map_append _ _ _

theorem mem_keysOf_foldl_insert (m : AttrMap) :
    ∀ (acc : AttrMap) (k' : String),
      k' ∈ keysOf (m.foldl (fun acc kv => insertAttr acc (ddKey kv.1) kv.2) acc)
        ↔ k' ∈ keysOf acc ∨ ∃ k, k ∈ keysOf m ∧ ddKey k = k' := by
  induction m with
  | nil =>
    intro acc k'
    simp [keysOf_nil]
  | cons p rest ih =>
    intro acc k'
    rw [List.foldl_cons, ih, mem_keysOf_insertAttr]
    simp only [keysOf_cons, List.mem_cons]
    constructor
    · rintro ((h1 | h1) | ⟨k, hk, hdd⟩)
      · exact Or.inr ⟨p.1, Or.inl rfl, h1.symm⟩
      · exact Or.inl h1
      · exact Or.inr ⟨k, Or.inr hk, hdd⟩
    · rintro (h1 | ⟨k, hk | hk, hdd⟩)
      · exact Or.inl (Or.inr h1)
      · exact Or.inl (Or.inl (hk ▸ hdd).symm)
      · exact Or.inr ⟨k, hk, hdd⟩

theorem nodup_keysOf_foldl_insert (m : AttrMap) :
    ∀ acc : AttrMap, (keysOf acc).Nodup →
      (keysOf (m.foldl (fun acc kv => insertAttr acc (ddKey kv.1) kv.2) acc)).Nodup := by
  induction m with
  | nil => intro acc h; exact h
  | cons p rest ih =>
    intro acc h
    rw [List.foldl_cons]
    exact ih _ (nodup_keysOf_insertAttr h)

theorem mem_foldl_insert_elim (m : AttrMap) :
    ∀ (acc : AttrMap) (k' : String) (v' : AttributeValue),
      (k', v') ∈ m.foldl (fun acc kv => insertAttr acc (ddKey kv.1) kv.2) acc →
      (k', v') ∈ acc ∨ ∃ k, (k, v') ∈ m ∧ ddKey k = k' := by
  induction m with
  | nil => intro acc k' v' h; exact Or.inl h
  | cons p rest ih =>
    intro acc k' v' h
    rw [List.foldl_cons] at h
    rcases ih _ _ _ h with h1 | ⟨k, hk, hdd⟩
    · rcases mem_insertAttr_elim h1 with ⟨rfl, rfl⟩ | h2
      · refine Or.inr ⟨p.1, ?_, rfl⟩
        rw [Prod.mk.eta]
        exact List.mem_cons_self _ _
      · exact Or.inl h2
    · exact Or.inr ⟨k, List.mem_cons_of_mem _ hk, hdd⟩

theorem foldl_insert_of_fixed (m : AttrMap) :
    ∀ acc : AttrMap,
      (keysOf m).Nodup →
      (∀ k, k ∈ keysOf m → ddKey k = k) →
      (∀ k, k ∈ keysOf m → k ∉ keysOf acc) →
      m.foldl (fun acc kv => insertAttr acc (ddKey kv.1) kv.2) acc = acc ++ m := by
  induction m with
  | nil => intro acc _ _ _; simp
  | cons p rest ih =>
    intro acc hnd hfix hdis
    rw [keysOf_cons, List.nodup_cons] at hnd
    have hp1 : ddKey p.1 = p.1 :=
      hfix _ (by rw [keysOf_cons]; exact List.mem_cons_self _ _)
    have hpacc : p.1 ∉ keysOf acc :=
      hdis _ (by rw [keysOf_cons]; exact List.mem_cons_self _ _)
    have hfix2 : ∀ k, k ∈ keysOf rest → ddKey k = k := by
      intro k hk
      exact hfix k (by rw [keysOf_cons]; exact List.mem_cons_of_mem _ hk)
    have hdis2 : ∀ k, k ∈ keysOf rest → k ∉ keysOf (acc ++ [(p.1, p.2)]) := by
      intro k hk hmem
      rw [keysOf_append, List.mem_append] at hmem
      rcases hmem with h1 | h1
      · exact hdis k (by rw [keysOf_cons]; exact List.mem_cons_of_mem _ hk) h1
      · have hkp : k = p.1 := by simpa [keysOf] using h1
        exact hnd.1 (hkp ▸ hk)
    rw [List.foldl_cons, hp1, insertAttr_of_not_mem _ hpacc,
      ih (acc ++ [(p.1, p.2)]) hnd.2 hfix2 hdis2]
    simp

theorem mem_keysOf_transform (m : AttrMap) (k' : String) :
    k' ∈ keysOf (transform_attributes_to_datadog_format m)
      ↔ ∃ k, k ∈ keysOf m ∧ ddKey k = k' := by
  rw [transform_attributes_to_datadog_format, mem_keysOf_foldl_insert m [] k']
  simp [keysOf_nil]

theorem nodup_keysOf_transform (m : AttrMap) :
    (keysOf (transform_attributes_to_datadog_format m)).Nodup := by
  rw [transform_attributes_to_datadog_format]
  exact nodup_keysOf_foldl_insert m [] (by simp [keysOf_nil])

theorem ddKey_cases (k : String) :
    ddKey k = k ∨ ddKey k = "usr.id" ∨ ddKey k = "duration" ∨ ddKey k = "network.client.ip" := by
  unfold ddKey
  split_ifs <;> simp

theorem ddKey_idem (k : String) : ddKey (ddKey k) = ddKey k := by
  rcases ddKey_cases k with h | h | h | h <;> rw [h]
  · exact h
  · decide
  · decide
  · decide

/-- C3: `AttributeValue::parse` tries u128, then i64, then f64, then bool,
first success wins, and the five representative inputs parse as specified
(`"5"` ↦ Uint 5, `"-5"` ↦ Int (-5), `"3.14"` ↦ Float 3.14, `"true"` ↦
Bool true, `"hello"` ↦ String "hello"). -/
theorem attribute_parse_order :
    (∀ (s : String) (u : ℕ), parseU128 s = some u → AttributeValue.parse s = .Uint u)
    ∧ (∀ (s : String) (i : ℤ), parseU128 s = none → parseI64 s = some i →
        AttributeValue.parse s = .Int i)
    ∧ (∀ (s : String) (f : F64), parseU128 s = none → parseI64 s = none →
        parseF64 s = some f → AttributeValue.parse s = .Float f)
    ∧ (∀ (s : String) (b : Bool), parseU128 s = none → parseI64 s = none →
        parseF64 s = none → parseRustBool s = some b → AttributeValue.parse s = .Bool b)
    ∧ AttributeValue.parse "5" = .Uint 5
    ∧ AttributeValue.parse "-5" = .Int (-5)
    ∧ AttributeValue.parse "3.14" = .Float (.finite (3.14 : ℚ))
    ∧ AttributeValue.parse "true" = .Bool true
    ∧ AttributeValue.parse "hello" = .String "hello" := by
  refine ⟨?_, ?_, ?_, ?_, by decide, by decide, ?_, by decide, by decide⟩
  · intro s u h
    unfold AttributeValue.parse
    rw [h]
  · intro s i h1 h2
    unfold AttributeValue.parse
    rw [h1, h2]
  · intro s f h1 h2 h3
    unfold AttributeValue.parse
    rw [h1, h2, h3]
  · intro s b h1 h2 h3 h4
    unfold AttributeValue.parse
    rw [h1, h2, h3, h4]
  · have e1 : digitsToNat ['3'] = 3 := rfl
    have e2 : digitsToNat ['1', '4'] = 14 := rfl
    have h : (3.14 : ℚ)
        = (digitsToNat ['3'] : ℚ) + (digitsToNat ['1', '4'] : ℚ)
            / (10 : ℚ) ^ List.length ['1', '4'] := by
      rw [e1, e2]
      norm_num
    rw [h]
    rfl

/-- Witness for C3: the signed-integer stage at the concrete input `"-5"`. -/
theorem attribute_parse_order_witness :
    AttributeValue.parse "-5" = .Int (-5) :=
  attribute_parse_order.2.1 "-5" (-5) (by decide) (by decide)

/-- C10: `AttributeValue::parse` is total, and when every typed parse fails
it returns the `String` variant holding the input verbatim. -/
theorem attribute_parse_total_with_string_fallback :
    (∀ s : String,
        (∃ u, AttributeValue.parse s = .Uint u) ∨ (∃ i, AttributeValue.parse s = .Int i)
        ∨ (∃ f, AttributeValue.parse s = .Float f) ∨ (∃ b, AttributeValue.parse s = .Bool b)
        ∨ AttributeValue.parse s = .String s)
    ∧ (∀ s : String, parseU128 s = none → parseI64 s = none → parseF64 s = none →
        parseRustBool s = none → AttributeValue.parse s = .String s) := by
  constructor
  · intro s
    unfold AttributeValue.parse
    cases hu : parseU128 s with
    | some u => exact Or.inl ⟨u, rfl⟩
    | none =>
      cases hi : parseI64 s with
      | some i => exact Or.inr (Or.inl ⟨i, rfl⟩)
      | none =>
        cases hf : parseF64 s with
        | some f => exact Or.inr (Or.inr (Or.inl ⟨f, rfl⟩))
        | none =>
          cases hb : parseRustBool s with
          | some b => exact Or.inr (Or.inr (Or.inr (Or.inl ⟨b, rfl⟩)))
          | none => exact Or.inr (Or.inr (Or.inr (Or.inr rfl)))
  · intro s h1 h2 h3 h4
    unfold AttributeValue.parse
    rw [h1, h2, h3, h4]

/-- Witness for C10: the fallback at the concrete input `"hello"`. -/
theorem attribute_parse_total_with_string_fallback_witness :
    AttributeValue.parse "hello" = .String "hello" :=
  attribute_parse_total_with_string_fallback.2 "hello"
    (by decide) (by decide) (by decide) (by decide)

/-- C8 counterexample: the `u64 → i64` conversion is the wrapping cast
`value as i64`, so at `2^63` the value changes sign: `from(2^63)` is
`Int(-(2^63))`, not `Int(2^63)`. -/
theorem attribute_fromU64_wraps_at_2_63 :
    AttributeValue.fromU64 (2 ^ 63) = .Int (-(2 ^ 63 : ℤ))
    ∧ AttributeValue.fromU64 (2 ^ 63) ≠ .Int ((2 ^ 63 : ℕ) : ℤ) := by
  have h : AttributeValue.fromU64 (2 ^ 63) = .Int (-(2 ^ 63 : ℤ)) := by
    unfold AttributeValue.fromU64 AttributeValue.i64_of_u64
    rw [if_neg (by norm_num)]
    norm_num [AttributeValue.Int.injEq]
  refine ⟨h, ?_⟩
  rw [h]
  intro hc
  simp only [AttributeValue.Int.injEq] at hc
  norm_num at hc

/-- C8 amended: `u32 → Int` preserves the value; `u64 → Int` is the
two's-complement wrapping cast, value-preserving exactly below `2^63` and
shifted by `-2^64` above; `u128 → Uint` always preserves the value. -/
theorem attribute_from_scalar_coercions :
    (∀ x : ℕ, x < 2 ^ 32 → AttributeValue.fromU32 x = .Int ((x : ℤ)))
    ∧ (∀ x : ℕ, x < 2 ^ 63 → AttributeValue.fromU64 x = .Int ((x : ℤ)))
    ∧ (∀ x : ℕ, 2 ^ 63 ≤ x → x < 2 ^ 64 → AttributeValue.fromU64 x = .Int ((x : ℤ) - 2 ^ 64))
    ∧ (∀ x : ℕ, AttributeValue.fromU128 x = .Uint x) := by
  refine ⟨fun x _ => rfl, fun x hx => ?_, fun x hx1 _ => ?_, fun x => rfl⟩
  · unfold AttributeValue.fromU64 AttributeValue.i64_of_u64
    rw [if_pos hx]
  · unfold AttributeValue.fromU64 AttributeValue.i64_of_u64
    rw [if_neg (by omega)]

/-- Witness for C8's amended theorem at concrete inputs. -/
theorem attribute_from_scalar_coercions_witness :
    AttributeValue.fromU32 7 = .Int ((7 : ℕ) : ℤ)
    ∧ AttributeValue.fromU64 5 = .Int ((5 : ℕ) : ℤ)
    ∧ AttributeValue.fromU64 (2 ^ 63 + 1) = .Int (((2 ^ 63 + 1 : ℕ) : ℤ) - 2 ^ 64) :=
  ⟨attribute_from_scalar_coercions.1 7 (by norm_num),
   attribute_from_scalar_coercions.2.1 5 (by norm_num),
   attribute_from_scalar_coercions.2.2.1 (2 ^ 63 + 1) (by norm_num) (by norm_num)⟩

/-- C1: the round-trip `from_str (as_str v) = v` fails on the code: the
source's `from_str` has no arm for `"petabyte"`, `"exabyte"`, or any Disk
code, and panics (`none` here) on all six of those canonical codes, while
it does hold on the other variants (e.g. `terabyte`). -/
theorem metric_unit_roundtrip_fails_on_disk_and_large_bytes :
    MetricUnit.as_str (.Bytes .PetaByte) = "petabyte"
    ∧ MetricUnit.from_str (MetricUnit.as_str (.Bytes .PetaByte)) = none
    ∧ MetricUnit.from_str (MetricUnit.as_str (.Bytes .ExaByte)) = none
    ∧ MetricUnit.from_str (MetricUnit.as_str (.Disk .File)) = none
    ∧ MetricUnit.from_str (MetricUnit.as_str (.Disk .Inode)) = none
    ∧ MetricUnit.from_str (MetricUnit.as_str (.Disk .Sector)) = none
    ∧ MetricUnit.from_str (MetricUnit.as_str (.Disk .Block)) = none
    ∧ MetricUnit.from_str (MetricUnit.as_str (.Bytes .TeraByte)) = some (.Bytes .TeraByte) :=
  ⟨rfl, rfl, rfl, rfl, rfl, rfl, rfl, rfl⟩

/-- C6: `from_str` does return a unit on codes present in its match table
(e.g. `"ms"`) and errors on garbage (`"not-a-unit"`), but it also errors
on `"file"`, which is a variant's canonical code (`DiskUnit::File`), so
it does NOT error exactly on strings that match no variant's code. -/
theorem metric_unit_from_str_panics_on_a_table_code :
    MetricUnit.as_str (.Disk .File) = "file"
    ∧ MetricUnit.from_str "file" = none
    ∧ MetricUnit.from_str "ms" = some (.Time .Millisecond)
    ∧ MetricUnit.from_str "not-a-unit" = none :=
  ⟨rfl, rfl, rfl, rfl⟩

/-- C9: `TelemetryService::shutdown` invokes all three component shutdowns
in order regardless of failures, returns `Ok` exactly when none failed,
and otherwise aggregates the failure messages into one `ShutdownError`
joined by `"; "`. -/
theorem telemetry_shutdown_attempts_all_and_aggregates :
    (∀ tr me lo : Except String Unit,
        (TelemetryService.shutdown tr me lo).attempted = ["tracer", "metrics", "logger"]
        ∧ ((TelemetryService.shutdown tr me lo).result = .ok ()
            ↔ tr = .ok () ∧ me = .ok () ∧ lo = .ok ()))
    ∧ (TelemetryService.shutdown (.error "a") (.error "b") (.error "c")).result
        = .error (.ShutdownError
            "Tracer shutdown error: a; Metrics shutdown error: b; Logger shutdown error: c")
    ∧ (TelemetryService.shutdown (.ok ()) (.error "b") (.ok ())).result
        = .error (.ShutdownError "Metrics shutdown error: b") := by
  refine ⟨fun tr me lo => ?_, by rfl, by rfl⟩
  cases tr <;> cases me <;> cases lo <;>
    simp [TelemetryService.shutdown]

/-- C2 counterexample: on the two-entry input `{user ↦ true, usr.id ↦ false}`
the mapper produces a single entry (both keys rewrite to `usr.id`), so the
output does not have exactly as many entries as the input. -/
theorem dd_transform_collides_user_and_usr_id :
    (transform_attributes_to_datadog_format
        [("user", AttributeValue.Bool true), ("usr.id", AttributeValue.Bool false)]).length = 1
    ∧ ([("user", AttributeValue.Bool true), ("usr.id", AttributeValue.Bool false)]
        : AttrMap).length = 2 :=
  ⟨rfl, rfl⟩

/-- C2 amended: every input key yields its mapped key in the output and
every output key arises that way (the output key set is exactly the image
of `ddKey` over the input key set, duplicate-free); when two distinct
input keys map to the same output key the entries collide, so the output
can have fewer entries than the input. -/
theorem dd_transform_key_set :
    (∀ (m : AttrMap) (k' : String),
        k' ∈ keysOf (transform_attributes_to_datadog_format m)
          ↔ ∃ k, k ∈ keysOf m ∧ ddKey k = k')
    ∧ (∀ m : AttrMap, (keysOf (transform_attributes_to_datadog_format m)).Nodup) :=
  ⟨mem_keysOf_transform, nodup_keysOf_transform⟩

/-- C7: the Datadog convention mapper is idempotent, and reserved keys and
already-namespaced keys are fixed points of the per-key rewriting. -/
theorem dd_transform_idempotent :
    (∀ m : AttrMap,
        transform_attributes_to_datadog_format (transform_attributes_to_datadog_format m)
          = transform_attributes_to_datadog_format m)
    ∧ (∀ k, k ∈ reservedKeys → ddKey k = k)
    ∧ (∀ k, ddNamespaces.any (fun p => starts_with k p) = true → ddKey k = k) := by
  refine ⟨fun m => ?_, fun k hk => ?_, fun k hk => ?_⟩
  · have hnd := nodup_keysOf_transform m
    have hfix : ∀ k, k ∈ keysOf (transform_attributes_to_datadog_format m) → ddKey k = k := by
      intro k hk
      rcases (mem_keysOf_transform m k).1 hk with ⟨k0, _, hdd⟩
      rw [← hdd, ddKey_idem]
    have h := foldl_insert_of_fixed (transform_attributes_to_datadog_format m) [] hnd hfix
      (fun k _ hc => by simp [keysOf_nil] at hc)
    calc transform_attributes_to_datadog_format (transform_attributes_to_datadog_format m)
        = (transform_attributes_to_datadog_format m).foldl
            (fun acc kv => insertAttr acc (ddKey kv.1) kv.2) [] := rfl
      _ = [] ++ transform_attributes_to_datadog_format m := h
      _ = transform_attributes_to_datadog_format m := by simp
  · unfold ddKey
    rw [if_pos hk]
  · unfold ddKey
    by_cases h1 : k ∈ reservedKeys
    · rw [if_pos h1]
    · rw [if_neg h1, if_pos hk]

/-- Witness for C7's fixed-point conjuncts: the reserved key `service` and
the namespaced key `network.client.ip` are fixed by the rewriting. -/
theorem dd_transform_idempotent_witness :
    ddKey "service" = "service" ∧ ddKey "network.client.ip" = "network.client.ip" :=
  ⟨dd_transform_idempotent.2.1 "service" (by decide),
   dd_transform_idempotent.2.2 "network.client.ip" (by decide)⟩

/-- C4: the code's per-key rewriting agrees with the spec's precedence
rules (reserved, namespaced, remap table, default — first match wins),
representative keys rewrite as the remap table says, and values are never
altered: every output entry carries a value of an input entry whose key
maps to the output key. -/
theorem dd_key_precedence_and_value_preservation :
    (∀ k, ddKey k = ddKeySpec k)
    ∧ ddKey "user" = "usr.id" ∧ ddKey "user_id" = "usr.id"
    ∧ ddKey "latency" = "duration" ∧ ddKey "remote_addr" = "network.client.ip"
    ∧ ddKey "trace_id" = "trace_id" ∧ ddKey "http.method" = "http.method"
    ∧ ddKey "custom_key" = "custom_key"
    ∧ (∀ (m : AttrMap) (k' : String) (v' : AttributeValue),
        (k', v') ∈ transform_attributes_to_datadog_format m →
        ∃ k, (k, v') ∈ m ∧ ddKey k = k') := by
  refine ⟨?_, by decide, by decide, by decide, by decide, by decide, by decide, by decide, ?_⟩
  · intro k
    unfold ddKey ddKeySpec reservedKeys ddNamespaces
    simp only [List.mem_cons, List.not_mem_nil, or_false, List.any_cons, List.any_nil,
      Bool.or_false, Bool.or_eq_true]
  · intro m k' v' h
    rw [transform_attributes_to_datadog_format] at h
    rcases mem_foldl_insert_elim m [] k' v' h with h1 | h2
    · simp at h1
    · exact h2

/-- Witness for C4: the entry `("user", true)` of a concrete map surfaces
under the remapped key `usr.id` with its value unaltered. -/
theorem dd_key_precedence_and_value_preservation_witness :
    ∃ k, (k, AttributeValue.Bool true) ∈ ([("user", AttributeValue.Bool true)] : AttrMap)
      ∧ ddKey k = "usr.id" :=
  dd_key_precedence_and_value_preservation.2.2.2.2.2.2.2.2
    [("user", AttributeValue.Bool true)] "usr.id" (AttributeValue.Bool true) (by decide)

/-- C5: `DatadogLogger::log` injects, before convention mapping, a
`status` attribute (textual log level) and a `service` attribute (the
configured service name) when absent, and leaves an existing `status`
value untouched; the textual forms include `info`, `error`, `critical`. -/
theorem dd_log_status_service_injection :
    (∀ (lg : DatadogLogger) (ctx : LogContext),
        lookupAttr ctx.attributes "status" = none →
        lookupAttr ctx.attributes "service" = none →
        lookupAttr (lg.logAttributes ctx) "status"
            = some (.String (DatadogLogger.to_datadog_status ctx.level))
          ∧ lookupAttr (lg.logAttributes ctx) "service" = some (.String lg.service_name))
    ∧ (∀ (lg : DatadogLogger) (ctx : LogContext) (v : AttributeValue),
        lookupAttr ctx.attributes "status" = some v →
        lookupAttr (lg.logAttributes ctx) "status" = some v)
    ∧ DatadogLogger.to_datadog_status .Info = "info"
    ∧ DatadogLogger.to_datadog_status .Error = "error"
    ∧ DatadogLogger.to_datadog_status .Critical = "critical" := by
  refine ⟨?_, ?_, rfl, rfl, rfl⟩
  · intro lg ctx h1 h2
    have hc1 : containsKey ctx.attributes "status" = false := by
      rw [containsKey_eq_isSome, h1]
      rfl
    have h2' : lookupAttr
        (insertAttr ctx.attributes "status"
          (AttributeValue.String (DatadogLogger.to_datadog_status ctx.level))) "service"
        = none := by
      rw [lookupAttr_insertAttr_other _ _ (by decide), h2]
    have hc2 : containsKey
        (insertAttr ctx.attributes "status"
          (AttributeValue.String (DatadogLogger.to_datadog_status ctx.level))) "service"
        = false := by
      rw [containsKey_eq_isSome, h2']
      rfl
    simp only [DatadogLogger.logAttributes, hc1, hc2, Bool.not_false, if_true]
    constructor
    · rw [lookupAttr_insertAttr_other _ _ (by decide), lookupAttr_insertAttr_self]
    · rw [lookupAttr_insertAttr_self]
  · intro lg ctx v h1
    have hc1 : containsKey ctx.attributes "status" = true := by
      rw [containsKey_eq_isSome, h1]
      rfl
    simp only [DatadogLogger.logAttributes, hc1, Bool.not_true, Bool.false_eq_true, if_false]
    cases hs : containsKey ctx.attributes "service" with
    | true =>
      simp only [Bool.not_true, Bool.false_eq_true, if_false]
      exact h1
    | false =>
      simp only [Bool.not_false, if_true]
      rw [lookupAttr_insertAttr_other _ _ (by decide)]
      exact h1

/-- Witness for C5: a logger named `my-service` logging an `Info` context
with no attributes gets `status = "info"` and `service = "my-service"`. -/
theorem dd_log_status_service_injection_witness :
    lookupAttr (DatadogLogger.logAttributes ⟨true, "my-service"⟩
        ⟨LogLevel.Info, none, "msg", none, []⟩) "status"
        = some (AttributeValue.String "info")
    ∧ lookupAttr (DatadogLogger.logAttributes ⟨true, "my-service"⟩
        ⟨LogLevel.Info, none, "msg", none, []⟩) "service"
        = some (AttributeValue.String "my-service") :=
  dd_log_status_service_injection.1 ⟨true, "my-service"⟩
    ⟨LogLevel.Info, none, "msg", none, []⟩ rfl rfl
